import Mathlib

/-!
Verification of the natural-language specification of a repository of
Streamlit data-dashboard pages (`src/pages/*.py`) against a shallow
embedding of the relevant page logic in Lean.

Each Python routine named in the claims is translated into an executable
Lean definition; machine-level details that no claim depends on
(pandas `Timestamp` range bounds, IEEE-754 rounding inside colour
interpolation, unicode-aware `str.lower` beyond ASCII) are modelled by
the exact mathematical operation and noted at the definition site.
-/

namespace Dashboards

/-! ### Calendar dates

Model of the pandas `Timestamp` values produced by
`pd.to_datetime(..., format="%Y%m%d")`: a plain Gregorian calendar date.
The pandas `Timestamp.min`/`Timestamp.max` range bounds are not modelled;
no claim in scope depends on them.
-/

structure Date where
  year : Nat
  month : Nat
  day : Nat
deriving DecidableEq, Repr

def isLeap (y : Nat) : Bool :=
  (y % 4 == 0 && y % 100 != 0) || y % 400 == 0

def daysInMonth (y m : Nat) : Nat :=
  if m = 2 then (if isLeap y then 29 else 28)
  else if m = 4 ∨ m = 6 ∨ m = 9 ∨ m = 11 then 30
  else 31

def validDate (y m d : Nat) : Bool :=
  1 ≤ m && m ≤ 12 && 1 ≤ d && d ≤ daysInMonth y m

def digitVal (c : Char) : Nat := c.toNat - '0'.toNat

def allDigits (l : List Char) : Bool := l.all Char.isDigit

def natOfDigits (l : List Char) : Nat :=
  l.foldl (fun n c => 10 * n + digitVal c) 0

/-- Embedding of `pd.to_datetime(s, format="%Y%m%d", errors="coerce")`:
the string must consist of exactly eight digits `YYYYMMDD` naming a valid
calendar date, otherwise the coercion yields `NaT` (modelled as `none`).
With `errors="coerce"` this pandas call does not raise. -/
def pdToDatetimeYmdCoerce (s : String) : Option Date :=
  let cs := s.data
  if cs.length = 8 ∧ allDigits cs then
    let y := natOfDigits (cs.take 4)
    let m := natOfDigits ((cs.drop 4).take 2)
    let d := natOfDigits (cs.drop 6)
    if validDate y m d then some ⟨y, m, d⟩ else none
  else none

/-! ### Python string primitives used by `parse_date_flexible`
(src/pages/05_국가보훈자.py) -/

/-- The ASCII whitespace class of the Python regex `\s` and of
`str.strip()` (unicode-only whitespace code points are not modelled; no
claim depends on them). -/
def pySpace (c : Char) : Bool :=
  c = ' ' || c = '\t' || c = '\n' || c = '\r' || c = '\x0b' || c = '\x0c'

/-- Embedding of Python `str.strip()`. -/
def pyStrip (s : String) : String :=
  ⟨((s.data.dropWhile pySpace).reverse.dropWhile pySpace).reverse⟩

/-- Embedding of Python `str.lower()`, restricted to ASCII letters (the
only case-carrying characters the callers compare against). -/
def asciiLower (s : String) : String :=
  ⟨s.data.map (fun c =>
    if 'A' ≤ c ∧ c ≤ 'Z' then Char.ofNat (c.toNat + 32) else c)⟩

/-- Embedding of `re.sub(r"년|월|일|\s+", "-", s)`: each occurrence of
`년`, `월` or `일`, and each maximal run of whitespace, is replaced by a
single hyphen.  The flag `inRun` records whether the previous character
belonged to a whitespace run whose hyphen has already been emitted. -/
def subDateWordsAux (inRun : Bool) : List Char → List Char
  | [] => []
  | c :: rest =>
    if c = '년' ∨ c = '월' ∨ c = '일' then '-' :: subDateWordsAux false rest
    else if pySpace c then
      if inRun then subDateWordsAux true rest
      else '-' :: subDateWordsAux true rest
    else c :: subDateWordsAux false rest

def subDateWords (l : List Char) : List Char := subDateWordsAux false l

/-- Character class kept by `re.sub(r"[^0-9\-\./]", "", s)`. -/
def keepDateChar (c : Char) : Bool :=
  c.isDigit || c = '-' || c = '.' || c = '/'

/-- Embedding of `s.replace(".", "-").replace("/", "-")`. -/
def dotSlashToHyphen (c : Char) : Char :=
  if c = '.' ∨ c = '/' then '-' else c

/-- Embedding of `re.sub(r"-+", "-", s)`: each maximal run of hyphens is
collapsed to a single hyphen, again via a run flag. -/
def collapseHyphensAux (inRun : Bool) : List Char → List Char
  | [] => []
  | c :: rest =>
    if c = '-' then
      if inRun then collapseHyphensAux true rest
      else '-' :: collapseHyphensAux true rest
    else c :: collapseHyphensAux false rest

def collapseHyphens (l : List Char) : List Char := collapseHyphensAux false l

/-- Embedding of Python `str.strip("-")`. -/
def stripHyphens (l : List Char) : List Char :=
  ((l.dropWhile (· = '-')).reverse.dropWhile (· = '-')).reverse

/-- The normalisation pipeline of `parse_date_flexible` applied to the
already-stripped input string: the three `re.sub` passes, the
`.replace` calls and the final `strip("-")`, in source order. -/
def normalizeDateString (s : String) : String :=
  ⟨stripHyphens (collapseHyphens
    (((subDateWords s.data).filter keepDateChar).map dotSlashToHyphen))⟩

/-- The placeholder strings rejected by `parse_date_flexible` after
lower-casing. -/
def placeholderStrings : List String := ["nan", "none", "-", "미상", "불명"]

/-- Input values flowing into `parse_date_flexible`: either a pandas
missing value (`pd.isna(x)` true) or a string. -/
inductive PyVal where
  | na : PyVal
  | str : String → PyVal
deriving DecidableEq, Repr

/-- Continuation of `parse_date_flexible` after the eight-digit branch
has not returned: the six-digit `YYMMDD` branch with its century pivot,
then the general `pd.to_datetime(s, errors="coerce", dayfirst=False)`
call, whose behaviour is not modelled but supplied as the parameter
`pdGeneral`; its surrounding `try/except` returns `NaT` on any raise. -/
def parseSixOrGeneral (pdGeneral : String → Except Unit (Option Date))
    (s : String) : Except Unit (Option Date) :=
  if s.data.length = 6 ∧ allDigits s.data then
    let yy := natOfDigits (s.data.take 2)
    let year := if yy ≤ 25 then 2000 + yy else 1900 + yy
    Except.ok (pdToDatetimeYmdCoerce (toString year ++ ⟨s.data.drop 2⟩))
  else
    match pdGeneral s with
    | Except.ok d => Except.ok d
    | Except.error _ => Except.ok none

/-- Embedding of `parse_date_flexible` (src/pages/05_국가보훈자.py).
The result is in `Except Unit` so that an escaping Python exception is
representable as `Except.error`; every pandas call of the source that
sits inside a `try/except` is either modelled exactly
(`pd.to_datetime` with `format="%Y%m%d"` and `errors="coerce"`, which
does not raise, so its `except: pass` arm is dead) or supplied as the
arbitrary, possibly-raising parameter `pdGeneral`. -/
def parse_date_flexible (pdGeneral : String → Except Unit (Option Date)) :
    PyVal → Except Unit (Option Date)
  | PyVal.na => Except.ok none
  | PyVal.str v =>
    let s0 := pyStrip v
    if s0 = "" ∨ placeholderStrings.contains (asciiLower s0) then
      Except.ok none
    else
      let s := normalizeDateString s0
      if s.data.length = 8 ∧ allDigits s.data then
        Except.ok (pdToDatetimeYmdCoerce s)
      else
        parseSixOrGeneral pdGeneral s

/-- C2: for every input value (a pandas missing value, the empty string,
placeholder strings such as `미상`, or arbitrary non-date text) and every
behaviour of the unmodelled general `pd.to_datetime` fallback — even one
that raises — `parse_date_flexible` terminates normally (it is a total
Lean function) and returns `Except.ok` of either a parsed date or `NaT`
(`none`); it never lets an exception escape. -/
theorem parse_date_flexible_never_raises
    (pdGeneral : String → Except Unit (Option Date)) (x : PyVal) :
    ∃ r : Option Date, parse_date_flexible pdGeneral x = Except.ok r := by
  cases x with
  | na => exact ⟨none, rfl⟩
  | str v =>
    simp only [parse_date_flexible]
    split
    · exact ⟨none, rfl⟩
    · split
      · exact ⟨_, rfl⟩
      · simp only [parseSixOrGeneral]
        split
        · exact ⟨_, rfl⟩
        · split
          · exact ⟨_, rfl⟩
          · exact ⟨none, rfl⟩

/-- C8: every input whose normalised form is exactly six digits `YYMMDD`
is interpreted with the fixed century pivot — a two-digit year of at most
25 becomes `2000 + YY` and a two-digit year of 26 or more becomes
`1900 + YY` — and only then are the month and day digits parsed, by
handing the reassembled eight-digit string to the `%Y%m%d` coercion. -/
theorem parse_date_flexible_six_digit_pivot
    (pdGeneral : String → Except Unit (Option Date)) (v : String)
    (hval : ¬(pyStrip v = "" ∨
      placeholderStrings.contains (asciiLower (pyStrip v)) = true))
    (hlen : (normalizeDateString (pyStrip v)).data.length = 6)
    (hdig : allDigits (normalizeDateString (pyStrip v)).data = true) :
    parse_date_flexible pdGeneral (PyVal.str v) =
      Except.ok (pdToDatetimeYmdCoerce
        (toString (if natOfDigits ((normalizeDateString (pyStrip v)).data.take 2) ≤ 25
            then 2000 + natOfDigits ((normalizeDateString (pyStrip v)).data.take 2)
            else 1900 + natOfDigits ((normalizeDateString (pyStrip v)).data.take 2)) ++
          ⟨(normalizeDateString (pyStrip v)).data.drop 2⟩)) := by
  simp only [parse_date_flexible]
  rw [if_neg hval, if_neg (by rw [hlen]; simp)]
  simp only [parseSixOrGeneral]
  rw [if_pos ⟨hlen, hdig⟩]

/-- Witness for C8 at the concrete input `"240101"`: the two-digit year
24 is pivoted to 2024 and the result is 2024-01-01. -/
theorem parse_date_flexible_six_digit_pivot_witness :
    parse_date_flexible (fun _ => Except.error ()) (PyVal.str "240101") =
      Except.ok (some ⟨2024, 1, 1⟩) := by
  have h := parse_date_flexible_six_digit_pivot (fun _ => Except.error ())
    "240101" (by decide) (by decide) (by decide)
  rw [h]
  rfl

/-! ### Encoding-fallback CSV loaders (C3)

A CSV file on disk is modelled by the function `decode`, which maps an
encoding name to `some` parsed frame when `pd.read_csv` with that
encoding succeeds and to `none` when it raises.  The parsed frame type
is abstract because no claim in scope depends on frame contents here. -/

/-- Linear first-success iteration over a list of encoding names: the
shared shape of the encoding-aware loaders. -/
def tryEncodings (decode : String → Option α) : List String → Option α
  | [] => none
  | e :: rest =>
    match decode e with
    | some v => some v
    | none => tryEncodings decode rest

theorem tryEncodings_eq_none_iff (decode : String → Option α)
    (encs : List String) :
    tryEncodings decode encs = none ↔ ∀ e ∈ encs, decode e = none := by
  induction encs with
  | nil => simp [tryEncodings]
  | cons e rest ih =>
    cases h : decode e with
    | some v => simp [tryEncodings, h]
    | none => simp [tryEncodings, h, ih]

theorem tryEncodings_first (decode : String → Option α) :
    ∀ (pre : List String) (e : String) (rest : List String) (v : α),
      (∀ e2 ∈ pre, decode e2 = none) → decode e = some v →
      tryEncodings decode (pre ++ e :: rest) = some v := by
  intro pre
  induction pre with
  | nil =>
    intro e rest v _ h
    simp [tryEncodings, h]
  | cons p ps ih =>
    intro e rest v hpre h
    have hp : decode p = none := hpre p (by simp)
    simp only [List.cons_append, tryEncodings, hp]
    exact ih e rest v (fun e2 he2 => hpre e2 (by simp [he2])) h

def subwayEncodings : List String := ["utf-8-sig", "cp949", "euc-kr", "latin1"]

/-- Embedding of `load_data` (src/pages/04_지하철분석.py): the four
encodings are tried in order inside a `try`/`except`/`continue` loop;
the first successful parse is post-processed by the `try` body (column
strip, `사용일자` date parse, `total` column), modelled by the total
function `post`, and returned; if every encoding fails, a
`FileNotFoundError` is raised (`Except.error`). -/
def load_data_subway (decode : String → Option α) (post : α → β) :
    Except Unit β :=
  match tryEncodings decode subwayEncodings with
  | some df => Except.ok (post df)
  | none => Except.error ()

def veteransListEncodings : List String := ["utf-8-sig", "euc-kr", "cp949", "utf-8"]

/-- Embedding of `load_data` (src/pages/05_수행1(국가보훈자).py): the four
encodings are tried in order; the first successful parse is returned;
if every encoding fails, an error is shown and `None` is returned. -/
def load_data_veterans_list (decode : String → Option α) : Option α :=
  tryEncodings decode veteransListEncodings

/-- Embedding of `read_csv_robust` (src/pages/05_국가보훈자.py): first the
pandas default encoding (modelled as the `none` argument), then `cp949`;
if both fail, the second exception is re-raised.  The `isinstance`
branches of the source call `pd.read_csv` identically for paths and
upload buffers, so they collapse in the model; the buffer `seek(0)`
rewind is invisible to `decode`. -/
def read_csv_robust (decode : Option String → Option α) : Except Unit α :=
  match decode none with
  | some df => Except.ok df
  | none =>
    match decode (some "cp949") with
    | some df => Except.ok df
    | none => Except.error ()

/-- C3: each encoding-aware loader tries its fixed encoding list in
sequence (`utf-8-sig, cp949, euc-kr, latin1` on the subway Top10 page;
`utf-8-sig, euc-kr, cp949, utf-8` on the veterans list page; the pandas
default then `cp949` in `read_csv_robust` of the veterans analysis
page), returns the result of the first encoding whose parse succeeds,
and signals failure exactly when every encoding in its list fails. -/
theorem encoding_fallback_loaders
    (decodeA : String → Option α) (post : α → β)
    (decodeB : String → Option γ) (decodeC : Option String → Option δ) :
    (load_data_subway decodeA post = Except.error () ↔
      ∀ e ∈ subwayEncodings, decodeA e = none) ∧
    (∀ (pre : List String) (e : String) (rest : List String) (v : α),
      subwayEncodings = pre ++ e :: rest →
      (∀ e2 ∈ pre, decodeA e2 = none) → decodeA e = some v →
      load_data_subway decodeA post = Except.ok (post v)) ∧
    (load_data_veterans_list decodeB = none ↔
      ∀ e ∈ veteransListEncodings, decodeB e = none) ∧
    (∀ (pre : List String) (e : String) (rest : List String) (v : γ),
      veteransListEncodings = pre ++ e :: rest →
      (∀ e2 ∈ pre, decodeB e2 = none) → decodeB e = some v →
      load_data_veterans_list decodeB = some v) ∧
    (read_csv_robust decodeC = Except.error () ↔
      decodeC none = none ∧ decodeC (some "cp949") = none) ∧
    (∀ v, decodeC none = some v → read_csv_robust decodeC = Except.ok v) ∧
    (∀ v, decodeC none = none → decodeC (some "cp949") = some v →
      read_csv_robust decodeC = Except.ok v) := by
  refine ⟨?_, ?_, ?_, ?_, ?_, ?_, ?_⟩
  · rw [← tryEncodings_eq_none_iff decodeA subwayEncodings]
    unfold load_data_subway
    cases h : tryEncodings decodeA subwayEncodings <;> simp [h]
  · intro pre e rest v heq hpre hv
    unfold load_data_subway
    rw [heq, tryEncodings_first decodeA pre e rest v hpre hv]
  · exact tryEncodings_eq_none_iff decodeB veteransListEncodings
  · intro pre e rest v heq hpre hv
    unfold load_data_veterans_list
    rw [heq]
    exact tryEncodings_first decodeB pre e rest v hpre hv
  · unfold read_csv_robust
    cases h1 : decodeC none <;> cases h2 : decodeC (some "cp949") <;>
      simp [h1, h2]
  · intro v hv
    unfold read_csv_robust
    rw [hv]
  · intro v h1 h2
    unfold read_csv_robust
    rw [h1, h2]

/-- Witness for C3 at concrete decoders: a subway file readable only as
`cp949` (so the first encoding fails and the second is used), a veterans
list file readable only as `utf-8` (the last encoding in that list), and
a veterans analysis file whose default-encoding read fails but whose
`cp949` read succeeds. -/
theorem encoding_fallback_loaders_witness :
    load_data_subway
      (fun e => if e = "cp949" then some 3 else (none : Option Nat))
      (fun n => n + 1) = Except.ok 4 ∧
    load_data_veterans_list
      (fun e => if e = "utf-8" then some 7 else (none : Option Nat)) =
      some 7 ∧
    read_csv_robust
      (fun e => if e = some "cp949" then some 9 else (none : Option Nat)) =
      Except.ok 9 := by
  have h := encoding_fallback_loaders
    (fun e => if e = "cp949" then some 3 else (none : Option Nat))
    (fun n => n + 1)
    (fun e => if e = "utf-8" then some 7 else (none : Option Nat))
    (fun e => if e = some "cp949" then some 9 else (none : Option Nat))
  refine ⟨?_, ?_, ?_⟩
  · exact h.2.1 ["utf-8-sig"] "cp949" ["euc-kr", "latin1"] 3 (by decide)
      (by decide) (by decide)
  · exact h.2.2.2.1 ["utf-8-sig", "euc-kr", "cp949"] "utf-8" [] 7
      (by decide) (by decide) (by decide)
  · exact h.2.2.2.2.2.2 9 (by decide) (by decide)

/-! ### Date-column auto-detection on the veterans analysis page (C4) -/

/-- Whether the pattern (first argument) occurs at the head of the text
(second argument). -/
def chainStartsWith : List Char → List Char → Bool
  | [], _ => true
  | _ :: _, [] => false
  | a :: as, b :: bs => a = b && chainStartsWith as bs

/-- Whether the pattern occurs anywhere in the text: embedding of the
Python substring test `pat in hay`. -/
def containsChain (pat : List Char) : List Char → Bool
  | [] => chainStartsWith pat []
  | c :: rest => chainStartsWith pat (c :: rest) || containsChain pat rest

def strContains (hay pat : String) : Bool := containsChain pat.data hay.data

/-- Predicate of the comprehension `possible_birth_cols`
(src/pages/05_국가보훈자.py): `"생" in c or "birth" in c.lower() or
"출생" in c`. -/
def birthColPred (c : String) : Bool :=
  strContains c "생" || strContains (asciiLower c) "birth" || strContains c "출생"

/-- Predicate of the comprehension `possible_death_cols`:
`"사망" in c or "죽" in c or "death" in c.lower()`. -/
def deathColPred (c : String) : Bool :=
  strContains c "사망" || strContains c "죽" || strContains (asciiLower c) "death"

def possibleBirthCols (cols : List String) : List String :=
  cols.filter birthColPred

def possibleDeathCols (cols : List String) : List String :=
  cols.filter deathColPred

/-- Embedding of `birth_col = possible_birth_cols[0] if possible_birth_cols
else None`. -/
def birthColOf (cols : List String) : Option String :=
  (possibleBirthCols cols).head?

/-- Embedding of `death_col = possible_death_cols[0] if possible_death_cols
else None`. -/
def deathColOf (cols : List String) : Option String :=
  (possibleDeathCols cols).head?

/-- Rendering outcome of the veterans analysis page after data load:
either the page stops at `st.stop()` without rendering anything, or it
renders with the recorded sections shown. -/
inductive VetOutcome where
  | stopped
  | rendered (birthListShown birthChartShown deathChartShown : Bool)
deriving DecidableEq, Repr

/-- Control flow of src/pages/05_국가보훈자.py after the dataframe is
loaded, as a function of its raw column names: the columns are stripped,
the birth and death columns are auto-detected, an undetected birth
column reports an error and stops the page, and otherwise the month
list and birth chart always render while the death chart renders only
when a death column was detected. -/
def veterans_page (rawCols : List String) : VetOutcome :=
  match birthColOf (rawCols.map pyStrip) with
  | none => VetOutcome.stopped
  | some _ =>
    VetOutcome.rendered true true (deathColOf (rawCols.map pyStrip)).isSome

theorem head_filter_eq_find (p : α → Bool) (l : List α) :
    (l.filter p).head? = l.find? p := by
  induction l with
  | nil => rfl
  | cons a l ih =>
    by_cases h : p a <;> simp [List.filter_cons, List.find?_cons, h, ih]

/-- C4: the birth-date column is the first (stripped) column whose name
contains `생` or `출생` or, case-insensitively, `birth`; with no such
column the page stops before rendering any list or chart, and with a
birth column present it renders the list and birth chart, the death
chart appearing exactly when a death column was also detected (so a
missing death column only disables the death chart). -/
theorem veterans_birth_column_detection :
    (∀ cols : List String, birthColOf cols = cols.find? birthColPred) ∧
    (∀ rawCols : List String, birthColOf (rawCols.map pyStrip) = none →
      veterans_page rawCols = VetOutcome.stopped) ∧
    (∀ (rawCols : List String) (c : String),
      birthColOf (rawCols.map pyStrip) = some c →
      veterans_page rawCols =
        VetOutcome.rendered true true (deathColOf (rawCols.map pyStrip)).isSome) := by
  refine ⟨?_, ?_, ?_⟩
  · intro cols
    exact head_filter_eq_find birthColPred cols
  · intro rawCols h
    unfold veterans_page
    rw [h]
  · intro rawCols c h
    unfold veterans_page
    rw [h]

/-- Witness for C4: with columns `["성명", " 생년월일 "]` the stripped
column `생년월일` is detected as the birth column, no death column
exists, and the page renders with the death chart disabled; with
columns `["성명", "주소"]` no birth column is detected and the page
stops. -/
theorem veterans_birth_column_detection_witness :
    veterans_page ["성명", " 생년월일 "] =
      VetOutcome.rendered true true false ∧
    veterans_page ["성명", "주소"] = VetOutcome.stopped := by
  constructor
  · have h := veterans_birth_column_detection.2.2 ["성명", " 생년월일 "]
      "생년월일" (by decide)
    rw [h]
    decide
  · exact veterans_birth_column_detection.2.1 ["성명", "주소"] (by decide)

/-! ### Subway Top10 grouping, sorting and truncation (C5)

Rows of the loaded subway frame after the `load_data` post-processing of
src/pages/04_지하철분석.py: a parsed `date` (`none` for `NaT`), the line
name `노선명`, the station name `역명`, and the numeric `total` column
(승차총승객수 + 하차총승객수). -/

structure SubwayRow where
  date : Option Date
  line : String
  station : String
  total : Int
deriving DecidableEq, Repr

/-- Embedding of the mask `(df["date"].dt.date == selected_date) &
(df["노선명"] == selected_line)`; a row whose date is `NaT` compares
unequal to every selected date. -/
def filterDateLine (rows : List SubwayRow) (d : Date) (l : String) :
    List SubwayRow :=
  rows.filter (fun r => r.date == some d && r.line == l)

/-- One step of the per-station summation: add a total into the
accumulator entry of its station, creating the entry on first sight. -/
def addToGroup : List (String × Int) → String → Int → List (String × Int)
  | [], k, v => [(k, v)]
  | (k2, v2) :: rest, k, v =>
    if k2 = k then (k2, v2 + v) :: rest
    else (k2, v2) :: addToGroup rest k v

/-- Embedding of
`df_f.groupby("역명", dropna=False, as_index=False)["total"].sum()`:
the per-station sums of the `total` column.  (pandas also sorts the
group keys; that order is irrelevant here because the frame is
immediately re-sorted by total.) -/
def groupTotals (rows : List SubwayRow) : List (String × Int) :=
  rows.foldl (fun acc r => addToGroup acc r.station r.total) []

/-- The comparison of `sort_values("total", ascending=False)`:
descending by summed total. -/
def byTotalDesc (a b : String × Int) : Prop := b.2 ≤ a.2

instance : DecidableRel byTotalDesc := fun a b => Int.decLe b.2 a.2

instance : IsTotal (String × Int) byTotalDesc :=
  ⟨fun a b => le_total b.2 a.2⟩

instance : IsTrans (String × Int) byTotalDesc :=
  ⟨fun _ _ _ h1 h2 => le_trans h2 h1⟩

/-- Embedding of `grouped.sort_values("total", ascending=False)`;
pandas sorting is modelled by a stable sort under the descending-total
relation. -/
def sortedTotals (rows : List SubwayRow) (d : Date) (l : String) :
    List (String × Int) :=
  List.insertionSort byTotalDesc (groupTotals (filterDateLine rows d l))

/-- Embedding of `topk = grouped.head(int(top_n))`: the displayed Top-N
frame of the subway page. -/
def topkStations (rows : List SubwayRow) (d : Date) (l : String) (n : Nat) :
    List (String × Int) :=
  (sortedTotals rows d l).take n

/-- C5: for every loaded dataset and every selected date, line and N,
the displayed frame — filtered rows grouped by station, totals summed,
sorted descending, first N taken — has at most N stations, and every
displayed station total is at least the total of every grouped station
that is not displayed. -/
theorem subway_topk_dominates (rows : List SubwayRow) (d : Date)
    (l : String) (n : Nat) :
    (topkStations rows d l n).length ≤ n ∧
    ∀ p ∈ topkStations rows d l n,
      ∀ q ∈ groupTotals (filterDateLine rows d l),
        q ∉ topkStations rows d l n → q.2 ≤ p.2 := by
  constructor
  · exact List.length_take_le n (sortedTotals rows d l)
  · intro p hp q hq hqn
    have hsorted : List.Sorted byTotalDesc (sortedTotals rows d l) :=
      List.sorted_insertionSort byTotalDesc _
    have hqmem : q ∈ sortedTotals rows d l := by
      simpa [sortedTotals, List.mem_insertionSort] using hq
    have hsplit : q ∈ (sortedTotals rows d l).take n ∨
        q ∈ (sortedTotals rows d l).drop n := by
      rw [← List.mem_append, List.take_append_drop]
      exact hqmem
    rcases hsplit with htake | hdrop
    · exact absurd htake hqn
    · exact hsorted.rel_of_mem_take_of_mem_drop hp hdrop

/-- Witness for C5: two stations on the same date and line, one of them
appearing in two rows that are summed (강남: 100 + 30 = 130, 홍대: 50);
with N = 1 only 강남 is displayed and its total dominates the
non-displayed 홍대. -/
theorem subway_topk_dominates_witness :
    (topkStations
      [⟨some ⟨2025, 10, 1⟩, "2호선", "강남", 100⟩,
       ⟨some ⟨2025, 10, 1⟩, "2호선", "홍대", 50⟩,
       ⟨some ⟨2025, 10, 1⟩, "2호선", "강남", 30⟩]
      ⟨2025, 10, 1⟩ "2호선" 1).length ≤ 1 ∧
    ((50 : Int) ≤ 130) := by
  have h := subway_topk_dominates
    [⟨some ⟨2025, 10, 1⟩, "2호선", "강남", 100⟩,
     ⟨some ⟨2025, 10, 1⟩, "2호선", "홍대", 50⟩,
     ⟨some ⟨2025, 10, 1⟩, "2호선", "강남", 30⟩]
    ⟨2025, 10, 1⟩ "2호선" 1
  exact ⟨h.1, h.2 ("강남", 130) (by decide) ("홍대", 50) (by decide) (by decide)⟩

/-! ### MBTI comparison dashboard, country-ranking tab (C9)

The tab dashboard of src/pages/03_MBTI분석.py works on a hardcoded
frame of 11 countries and four MBTI columns; each row is a country name
with its column values as an association list. -/

def mbtiColumns : List String := ["INTJ", "ENFP", "ISTP", "INFJ"]

/-- The hardcoded example frame `data` of the tab dashboard. -/
def mbtiData : List (String × List (String × Int)) :=
  [("South Korea", [("INTJ", 8), ("ENFP", 10), ("ISTP", 7), ("INFJ", 9)]),
   ("USA", [("INTJ", 6), ("ENFP", 12), ("ISTP", 5), ("INFJ", 8)]),
   ("Japan", [("INTJ", 7), ("ENFP", 9), ("ISTP", 8), ("INFJ", 7)]),
   ("Germany", [("INTJ", 5), ("ENFP", 8), ("ISTP", 6), ("INFJ", 6)]),
   ("France", [("INTJ", 6), ("ENFP", 9), ("ISTP", 7), ("INFJ", 5)]),
   ("UK", [("INTJ", 7), ("ENFP", 10), ("ISTP", 6), ("INFJ", 6)]),
   ("Canada", [("INTJ", 6), ("ENFP", 11), ("ISTP", 5), ("INFJ", 7)]),
   ("Brazil", [("INTJ", 5), ("ENFP", 7), ("ISTP", 4), ("INFJ", 5)]),
   ("India", [("INTJ", 4), ("ENFP", 6), ("ISTP", 6), ("INFJ", 4)]),
   ("Australia", [("INTJ", 6), ("ENFP", 9), ("ISTP", 5), ("INFJ", 5)]),
   ("Italy", [("INTJ", 5), ("ENFP", 8), ("ISTP", 7), ("INFJ", 6)])]

/-- Value of one country row in the column named `t`. -/
def colVal (t : String) (row : String × List (String × Int)) : Int :=
  (row.2.lookup t).getD 0

/-- The comparison of `df.sort_values(by=mbti_type, ascending=False)`. -/
def byColDesc (t : String) (a b : String × List (String × Int)) : Prop :=
  colVal t b ≤ colVal t a

instance (t : String) : DecidableRel (byColDesc t) :=
  fun a b => Int.decLe (colVal t b) (colVal t a)

instance (t : String) : IsTotal (String × List (String × Int)) (byColDesc t) :=
  ⟨fun a b => le_total (colVal t b) (colVal t a)⟩

instance (t : String) : IsTrans (String × List (String × Int)) (byColDesc t) :=
  ⟨fun _ _ _ h1 h2 => le_trans h2 h1⟩

/-- Embedding of `top10 = sorted_df.head(10)`. -/
def top10Of (df : List (String × List (String × Int))) (t : String) :
    List (String × List (String × Int)) :=
  (List.insertionSort (byColDesc t) df).take 10

/-- Embedding of the tab-2 ranking: if `South Korea` is not among the
first ten rows of the sorted frame, its rows are appended
(`pd.concat([top10, sk_row])`). -/
def top10Tab (df : List (String × List (String × Int))) (t : String) :
    List (String × List (String × Int)) :=
  if (top10Of df t).any (fun r => r.1 == "South Korea") then top10Of df t
  else top10Of df t ++ df.filter (fun r => r.1 == "South Korea")

/-- C9: on the hardcoded frame the displayed ranking includes South
Korea for every selectable MBTI type; and in general, whenever South
Korea is not among the top 10 rows, its row is appended to the ranking,
so a frame holding exactly one South Korea row among at least 10 rows
then displays 11 rows instead of 10. -/
theorem mbti_top10_includes_south_korea :
    (∀ t ∈ mbtiColumns,
      (top10Tab mbtiData t).any (fun r => r.1 == "South Korea") = true) ∧
    (∀ (df : List (String × List (String × Int))) (t : String),
      (top10Of df t).any (fun r => r.1 == "South Korea") = false →
      top10Tab df t =
        top10Of df t ++ df.filter (fun r => r.1 == "South Korea")) ∧
    (∀ (df : List (String × List (String × Int))) (t : String),
      df.countP (fun r => r.1 == "South Korea") = 1 → 10 ≤ df.length →
      (top10Of df t).any (fun r => r.1 == "South Korea") = false →
      (top10Tab df t).length = 11) := by
  refine ⟨by decide, ?_, ?_⟩
  · intro df t h
    unfold top10Tab
    rw [if_neg (by simp [h])]
  · intro df t hcount hlen h
    unfold top10Tab
    rw [if_neg (by simp [h])]
    rw [List.length_append, ← List.countP_eq_length_filter, hcount]
    have h10 : (top10Of df t).length = 10 := by
      unfold top10Of
      rw [List.length_take, List.length_insertionSort]
      omega
    omega

/-- Witness for C9 at a concrete alternative frame in which South Korea
ranks last (value 1 against 11..20): it is missing from the top 10, its
row is appended, and 11 rows are displayed. -/
theorem mbti_top10_includes_south_korea_witness :
    top10Tab
      [("A", [("T", (20 : Int))]), ("B", [("T", 19)]), ("C", [("T", 18)]),
       ("D", [("T", 17)]), ("E", [("T", 16)]), ("F", [("T", 15)]),
       ("G", [("T", 14)]), ("H", [("T", 13)]), ("I", [("T", 12)]),
       ("J", [("T", 11)]), ("South Korea", [("T", 1)])] "T" =
      top10Of
        [("A", [("T", (20 : Int))]), ("B", [("T", 19)]), ("C", [("T", 18)]),
         ("D", [("T", 17)]), ("E", [("T", 16)]), ("F", [("T", 15)]),
         ("G", [("T", 14)]), ("H", [("T", 13)]), ("I", [("T", 12)]),
         ("J", [("T", 11)]), ("South Korea", [("T", 1)])] "T" ++
        [("South Korea", [("T", 1)])] ∧
    (top10Tab
      [("A", [("T", (20 : Int))]), ("B", [("T", 19)]), ("C", [("T", 18)]),
       ("D", [("T", 17)]), ("E", [("T", 16)]), ("F", [("T", 15)]),
       ("G", [("T", 14)]), ("H", [("T", 13)]), ("I", [("T", 12)]),
       ("J", [("T", 11)]), ("South Korea", [("T", 1)])] "T").length = 11 := by
  constructor
  · have h := mbti_top10_includes_south_korea.2.1
      [("A", [("T", (20 : Int))]), ("B", [("T", 19)]), ("C", [("T", 18)]),
       ("D", [("T", 17)]), ("E", [("T", 16)]), ("F", [("T", 15)]),
       ("G", [("T", 14)]), ("H", [("T", 13)]), ("I", [("T", 12)]),
       ("J", [("T", 11)]), ("South Korea", [("T", 1)])] "T" (by decide)
    rw [h]
    decide
  · exact mbti_top10_includes_south_korea.2.2
      [("A", [("T", (20 : Int))]), ("B", [("T", 19)]), ("C", [("T", 18)]),
       ("D", [("T", 17)]), ("E", [("T", 16)]), ("F", [("T", 15)]),
       ("G", [("T", 14)]), ("H", [("T", 13)]), ("I", [("T", 12)]),
       ("J", [("T", 11)]), ("South Korea", [("T", 1)])] "T"
      (by decide) (by decide) (by decide)

/-! ### Bar colour palette of the subway Top10 page (C10)

Embedding of `make_colors` (src/pages/04_지하철분석.py).  The Python
loop computes in IEEE-754 doubles; the model uses exact rationals with
the same truncation `int(x*255)`, which the claim (and the palette
endpoints) do not distinguish — float rounding can shift an interior
component by one unit, never the structure, count or endpoints. -/

/-- One lower-case hexadecimal digit, as produced by the format `02x`. -/
def hexDigitChar (n : Nat) : Char :=
  if n < 10 then Char.ofNat ('0'.toNat + n)
  else Char.ofNat ('a'.toNat + (n - 10))

/-- Two-digit lower-case hexadecimal rendering of a byte, the
`f'{int(x*255):02x}'` of the source (components here always lie in
10..250, hence two digits). -/
def hexByte (v : Nat) : String :=
  ⟨[hexDigitChar (v / 16), hexDigitChar (v % 16)]⟩

/-- One interpolated colour component: `int(x * 255)` for
`x = (1-t)*(c1/255) + t*(c2/255)`; `int()` truncates toward zero and
the value is nonnegative, so this is the floor. -/
def lerpComp (t c1 c2 : ℚ) : ℕ :=
  (⌊((1 - t) * (c1 / 255) + t * (c2 / 255)) * 255⌋).toNat

/-- The colour appended at loop index `i` when `rest = n - 1` blue
shades are produced: `t = i / max(1, rest - 1)` interpolating from
`rgb(210, 230, 250)` to `rgb(10, 60, 130)`. -/
def blueColorAt (rest i : Nat) : String :=
  "#" ++ hexByte (lerpComp ((i : ℚ) / ((max 1 (rest - 1) : ℕ) : ℚ)) 210 10) ++
    hexByte (lerpComp ((i : ℚ) / ((max 1 (rest - 1) : ℕ) : ℚ)) 230 60) ++
    hexByte (lerpComp ((i : ℚ) / ((max 1 (rest - 1) : ℕ) : ℚ)) 250 130)

/-- Embedding of `make_colors(n)`: empty for `n <= 0`, the red marker
alone for `n == 1`, and otherwise the red marker followed by the
`n - 1` blue gradient shades. -/
def make_colors (n : Int) : List String :=
  if n ≤ 0 then []
  else if n = 1 then ["#ff4d4d"]
  else "#ff4d4d" :: (List.range (n - 1).toNat).map (blueColorAt (n - 1).toNat)

theorem blueColorAt_zero (rest : Nat) : blueColorAt rest 0 = "#d2e6fa" := by
  have ht : ((0 : Nat) : ℚ) / ((max 1 (rest - 1) : ℕ) : ℚ) = 0 := by
    simp
  unfold blueColorAt
  rw [ht]
  norm_num [lerpComp]
  rfl

theorem blueColorAt_last (rest : Nat) (h : 2 ≤ rest) :
    blueColorAt rest (rest - 1) = "#0a3c82" := by
  have hmax : (max 1 (rest - 1) : ℕ) = rest - 1 := by omega
  have hne : ((rest - 1 : ℕ) : ℚ) ≠ 0 := by
    have : (1 : ℕ) ≤ rest - 1 := by omega
    exact_mod_cast Nat.one_le_iff_ne_zero.mp this
  have ht : ((rest - 1 : Nat) : ℚ) / ((max 1 (rest - 1) : ℕ) : ℚ) = 1 := by
    rw [hmax]
    exact div_self hne
  unfold blueColorAt
  rw [ht]
  norm_num [lerpComp]
  rfl

/-- C10: for every integer n, `make_colors n` has exactly `max n 0`
entries; for n ≥ 1 the first entry is the red `#ff4d4d`; for n ≥ 2 the
remaining n − 1 entries are the linear blue gradient `blueColorAt`,
whose first shade is exactly `rgb(210,230,250)` (`#d2e6fa`) and — once
the gradient has at least two shades, n ≥ 3 — whose last shade is
exactly `rgb(10,60,130)` (`#0a3c82`). -/
theorem make_colors_spec :
    (∀ n : Int, ((make_colors n).length : Int) = max n 0) ∧
    (∀ n : Int, 1 ≤ n → (make_colors n).head? = some "#ff4d4d") ∧
    (∀ (n : Int) (i : Nat), 2 ≤ n → i < (n - 1).toNat →
      (make_colors n)[i + 1]? = some (blueColorAt (n - 1).toNat i)) ∧
    (∀ n : Int, 2 ≤ n → (make_colors n)[1]? = some "#d2e6fa") ∧
    (∀ n : Int, 3 ≤ n → (make_colors n)[(n - 1).toNat]? = some "#0a3c82") := by
  have hlen : ∀ n : Int, ((make_colors n).length : Int) = max n 0 := by
    intro n
    unfold make_colors
    by_cases h0 : n ≤ 0
    · simp [h0]
    · by_cases h1 : n = 1
      · simp [h0, h1]
      · simp [h0, h1, List.length_map, List.length_range]
        omega
  have hidx : ∀ (n : Int) (i : Nat), 2 ≤ n → i < (n - 1).toNat →
      (make_colors n)[i + 1]? = some (blueColorAt (n - 1).toNat i) := by
    intro n i h2 hi
    unfold make_colors
    rw [if_neg (by omega), if_neg (by omega)]
    rw [List.getElem?_cons_succ, List.getElem?_map, List.getElem?_range hi]
    rfl
  refine ⟨hlen, ?_, hidx, ?_, ?_⟩
  · intro n h1
    unfold make_colors
    by_cases heq : n = 1
    · simp [heq]
    · rw [if_neg (by omega), if_neg heq]
      rfl
  · intro n h2
    have h := hidx n 0 h2 (by omega)
    rw [h, blueColorAt_zero]
  · intro n h3
    have hsplit : (n - 1).toNat = (n - 2).toNat + 1 := by omega
    have h := hidx n (n - 2).toNat (by omega) (by omega)
    rw [hsplit, h]
    have hrest : (n - 1).toNat - 1 = (n - 2).toNat := by omega
    rw [← hrest, blueColorAt_last (n - 1).toNat (by omega)]

/-- Witness for C10 at n = 3: the palette is the red marker followed by
the two gradient endpoints. -/
theorem make_colors_spec_witness :
    ((make_colors 3).length : Int) = max 3 0 ∧
    (make_colors 3).head? = some "#ff4d4d" ∧
    (make_colors 3)[1]? = some "#d2e6fa" ∧
    (make_colors 3)[2]? = some "#0a3c82" :=
  ⟨make_colors_spec.1 3,
   make_colors_spec.2.1 3 (by norm_num),
   make_colors_spec.2.2.2.1 3 (by norm_num),
   make_colors_spec.2.2.2.2 3 (by norm_num)⟩

/-! ### Page catalogue (C1)

Structural facts about the eight pages.  Each field value is a fact of
the named source file, checkable by direct inspection: whether the page
reads a CSV (from disk, upload or uploaded ZIP), whether it performs
the light cleaning steps (date parsing, column detection or grouping),
whether it renders an interactive Plotly bar or line chart, and whether
it renders a dataframe table. -/

inductive Page where
  | mbtiRecommender
  | tourMap
  | mbtiExplorer
  | subwayTop10
  | veteransAnalysis
  | veteransList
  | crimeStats
  | subwayHourly
deriving DecidableEq, Repr, Fintype

/-- Whether the page loads a CSV file.  The MBTI recommender
(01_엠비티아이책영화두개씩.py) renders a hardcoded recommendation
dictionary and the tourist map (02_관광지.py) a hardcoded landmark
list; the subway hourly page reads its CSV out of an uploaded ZIP. -/
def loadsCsv : Page → Bool
  | Page.mbtiRecommender => false
  | Page.tourMap => false
  | Page.mbtiExplorer => true
  | Page.subwayTop10 => true
  | Page.veteransAnalysis => true
  | Page.veteransList => true
  | Page.crimeStats => true
  | Page.subwayHourly => true

/-- Whether the page performs light cleaning (date parsing, column
detection, grouping). -/
def performsLightCleaning : Page → Bool
  | Page.mbtiRecommender => false
  | Page.tourMap => false
  | Page.mbtiExplorer => true
  | Page.subwayTop10 => true
  | Page.veteransAnalysis => true
  | Page.veteransList => true
  | Page.crimeStats => true
  | Page.subwayHourly => true

/-- Whether the page renders an interactive Plotly bar or line chart.
The recommender writes text lists; the tourist map renders a Folium
map, not a bar or line chart. -/
def rendersInteractiveChart : Page → Bool
  | Page.mbtiRecommender => false
  | Page.tourMap => false
  | Page.mbtiExplorer => true
  | Page.subwayTop10 => true
  | Page.veteransAnalysis => true
  | Page.veteransList => true
  | Page.crimeStats => true
  | Page.subwayHourly => true

/-- Whether the page renders a dataframe table (`st.dataframe`).  The
subway hourly page (06_수행2(서울지하철).py) shows only summary text and
the line chart. -/
def rendersDataTable : Page → Bool
  | Page.mbtiRecommender => false
  | Page.tourMap => false
  | Page.mbtiExplorer => true
  | Page.subwayTop10 => true
  | Page.veteransAnalysis => true
  | Page.veteransList => true
  | Page.crimeStats => true
  | Page.subwayHourly => false

/-- Counterexample for C1 as stated ("every page loads a CSV, cleans it
and renders a chart plus a table"): it fails at the MBTI recommender
page, which loads no CSV at all. -/
theorem every_page_csv_chart_table_refuted :
    ¬ ∀ p : Page, (loadsCsv p && performsLightCleaning p &&
      rendersInteractiveChart p && rendersDataTable p) = true := by
  intro h
  exact absurd (h Page.mbtiRecommender) (by decide)

/-- C1 (amended): every page other than the MBTI recommender and the
tourist map loads a CSV, performs light cleaning and renders an
interactive chart; all of those except the subway hourly page also
render a filterable table; the two excluded pages work from hardcoded
in-file data (and the subway hourly page shows no table). -/
theorem csv_pages_catalogue :
    (∀ p : Page, p ≠ Page.mbtiRecommender → p ≠ Page.tourMap →
      (loadsCsv p && performsLightCleaning p &&
        rendersInteractiveChart p) = true) ∧
    (∀ p : Page, p ≠ Page.mbtiRecommender → p ≠ Page.tourMap →
      p ≠ Page.subwayHourly → rendersDataTable p = true) ∧
    loadsCsv Page.mbtiRecommender = false ∧
    loadsCsv Page.tourMap = false ∧
    rendersDataTable Page.subwayHourly = false := by
  refine ⟨?_, ?_, rfl, rfl, rfl⟩ <;> decide

/-- Witness for C1 (amended) at the subway Top10 page. -/
theorem csv_pages_catalogue_witness :
    (loadsCsv Page.subwayTop10 && performsLightCleaning Page.subwayTop10 &&
      rendersInteractiveChart Page.subwayTop10) = true ∧
    rendersDataTable Page.subwayTop10 = true :=
  ⟨csv_pages_catalogue.1 Page.subwayTop10 (by decide) (by decide),
   csv_pages_catalogue.2.1 Page.subwayTop10 (by decide) (by decide)
     (by decide)⟩

/-! ### Session state on the MBTI recommender page (C6)

The recommender (src/pages/01_엠비티아이책영화두개씩.py) is the one page
that touches `st.session_state`: pressing the button stores
`st.session_state["show"] = True`, and the recommendation block is
rendered when the updated state holds the key with value `True`. -/

structure Rec01 where
  movies : List String
  books : List String
deriving DecidableEq, Repr

/-- The hardcoded `recommendations` dictionary of the recommender page
(two movies and two books per MBTI type). -/
def recommendationsList : List (String × Rec01) :=
  [("ISTJ", ⟨["Bridge of Spies (2015)", "The King’s Speech (2010)"],
    ["The Count of Monte Cristo - Alexandre Dumas",
     "Pride and Prejudice - Jane Austen"]⟩),
   ("ISFJ", ⟨["The Help (2011)", "Finding Nemo (2003)"],
    ["Little Women - Louisa May Alcott", "The Book Thief - Markus Zusak"]⟩),
   ("INFJ", ⟨["Dead Poets Society (1989)", "Her (2013)"],
    ["Man\x27s Search for Meaning - Viktor E. Frankl",
     "The Alchemist - Paulo Coelho"]⟩),
   ("INTJ", ⟨["Inception (2010)", "The Social Network (2010)"],
    ["Foundation - Isaac Asimov", "Dune - Frank Herbert"]⟩),
   ("ISTP", ⟨["Mad Max: Fury Road (2015)", "Drive (2011)"],
    ["The Martian - Andy Weir", "Into Thin Air - Jon Krakauer"]⟩),
   ("ISFP", ⟨["Amélie (2001)", "La La Land (2016)"],
    ["Eat, Pray, Love - Elizabeth Gilbert",
     "The Little Prince - Antoine de Saint-Exupéry"]⟩),
   ("INFP", ⟨["Amélie (2001)", "Big Fish (2003)"],
    ["The Little Prince - Antoine de Saint-Exupéry",
     "The Perks of Being a Wallflower - Stephen Chbosky"]⟩),
   ("INTP", ⟨["A Beautiful Mind (2001)", "The Imitation Game (2014)"],
    ["Gödel, Escher, Bach - Douglas Hofstadter",
     "Surely You\x27re Joking, Mr. Feynman! - Richard Feynman"]⟩),
   ("ESTP", ⟨["Catch Me If You Can (2002)", "The Bourne Identity (2002)"],
    ["Into the Wild - Jon Krakauer",
     "The Bourne Identity - Robert Ludlum"]⟩),
   ("ESFP", ⟨["Mamma Mia! (2008)", "La La Land (2016)"],
    ["Crazy Rich Asians - Kevin Kwan",
     "The Great Gatsby - F. Scott Fitzgerald"]⟩),
   ("ENFP", ⟨["Almost Famous (2000)", "Good Will Hunting (1997)"],
    ["The Alchemist - Paulo Coelho",
     "The Perks of Being a Wallflower - Stephen Chbosky"]⟩),
   ("ENTP", ⟨["The Social Network (2010)", "The Wolf of Wall Street (2013)"],
    ["Freakonomics - Steven D. Levitt & Stephen J. Dubner",
     "Surely You\x27re Joking, Mr. Feynman! - Richard Feynman"]⟩),
   ("ESTJ", ⟨["12 Angry Men (1957)", "Erin Brockovich (2000)"],
    ["How to Win Friends and Influence People - Dale Carnegie",
     "The Checklist Manifesto - Atul Gawande"]⟩),
   ("ESFJ", ⟨["The Help (2011)", "Legally Blonde (2001)"],
    ["To Kill a Mockingbird - Harper Lee",
     "Little Women - Louisa May Alcott"]⟩),
   ("ENFJ", ⟨["Dead Poets Society (1989)", "Freedom Writers (2007)"],
    ["Man\x27s Search for Meaning - Viktor E. Frankl",
     "The Kite Runner - Khaled Hosseini"]⟩),
   ("ENTJ", ⟨["The Social Network (2010)", "Wall Street (1987)"],
    ["Good to Great - Jim Collins",
     "The Prince - Niccolò Machiavelli"]⟩)]

/-- Embedding of `recommendations.get(chosen, None)`. -/
def recommendations (m : String) : Option Rec01 :=
  recommendationsList.lookup m

/-- Visible result of one run of the recommender page: nothing, the
recommendation block for the chosen type, or the missing-type error. -/
inductive Render01 where
  | hidden
  | recsFor (chosen : String) (movies books : List String)
  | recErrorMsg
deriving DecidableEq, Repr

/-- Session state update of one run: pressing the button stores
`st.session_state["show"] = True`; otherwise the state (`none` when the
key is absent) is kept. -/
def updatedShow (pressed : Bool) (showState : Option Bool) : Option Bool :=
  if pressed then some true else showState

/-- The rendering block guarded by
`if "show" in st.session_state and st.session_state["show"]`. -/
def render01 (chosen : String) (flag : Bool) : Render01 :=
  if flag then
    match recommendations chosen with
    | some r => Render01.recsFor chosen r.movies r.books
    | none => Render01.recErrorMsg
  else Render01.hidden

/-- One full run of the recommender page: the button may update the
persisted state, then the guard reads the updated state. -/
def run01 (chosen : String) (pressed : Bool) (showState : Option Bool) :
    Render01 × Option Bool :=
  (render01 chosen ((updatedShow pressed showState).getD false),
   updatedShow pressed showState)

/-- Counterexample for C6 as stated ("for any two runs of any page with
identical current-run inputs the rendered output is identical
regardless of persisted state"): on the recommender page, with the same
widget inputs (type ISTJ chosen, button not pressed), a fresh session
renders nothing while a session whose earlier run pressed the button
renders the recommendation block. -/
theorem no_persistent_state_refuted :
    ¬ ∀ (chosen : String) (pressed : Bool) (s1 s2 : Option Bool),
      (run01 chosen pressed s1).1 = (run01 chosen pressed s2).1 := by
  intro h
  exact absurd (h "ISTJ" false none (some true)) (by decide)

/-- C6 (amended): the recommender page keeps exactly one piece of
persisted session state, the boolean flag `show`; its rendered output
is a pure function of the current widget values and of the disjunction
of the current button press with that flag, and the new persisted state
is the flag set by the press.  In particular two runs with identical
current-run inputs and an identical persisted flag render identically,
and a run that presses the button is independent of persisted state. -/
theorem page01_state_factors (chosen : String) (pressed : Bool)
    (s : Option Bool) :
    (run01 chosen pressed s).1 =
      render01 chosen (pressed || s.getD false) ∧
    (run01 chosen pressed s).2 = updatedShow pressed s := by
  constructor
  · show render01 chosen ((updatedShow pressed s).getD false) = _
    congr 1
    cases pressed <;> simp [updatedShow]
  · rfl

/-! ### The `st.cache_data` decorator (C7)

The decorator itself is Streamlit library code and is not part of the
repository sources; the spec describes it as "a trivial memoize-by-input
decorator", which is modelled here: a cache maps already-seen inputs to
stored results, a call returns the stored result on a hit and computes,
stores and returns the underlying function on a miss.  The underlying
loaders are deterministic functions of their modelled inputs. -/

/-- Modelled from the spec: lookup of an input in the memoization cache
of `st.cache_data` (the decorator source is not in src/). -/
def cacheLookup [DecidableEq α] : List (α × β) → α → Option β
  | [], _ => none
  | (k, v) :: rest, x => if k = x then some v else cacheLookup rest x

/-- Modelled from the spec: one call through the memoize-by-input
decorator — return the cached result on a hit, otherwise call the
underlying function and store its result. -/
def cachedCall [DecidableEq α] (f : α → β) (cache : List (α × β)) (x : α) :
    β × List (α × β) :=
  match cacheLookup cache x with
  | some v => (v, cache)
  | none => (f x, (x, f x) :: cache)

/-- Modelled from the spec: a sequence of calls through the decorator,
threading the cache. -/
def runCached [DecidableEq α] (f : α → β) :
    List α → List (α × β) → List β
  | [], _ => []
  | x :: xs, cache =>
    (cachedCall f cache x).1 :: runCached f xs (cachedCall f cache x).2

/-- A cache is faithful to `f` when every stored entry is the value of
`f` at its key. -/
def cacheFaithful [DecidableEq α] (f : α → β) (cache : List (α × β)) :
    Prop :=
  ∀ x v, cacheLookup cache x = some v → v = f x

theorem cachedCall_fst [DecidableEq α] (f : α → β) (cache : List (α × β))
    (x : α) (h : cacheFaithful f cache) : (cachedCall f cache x).1 = f x := by
  unfold cachedCall
  cases hl : cacheLookup cache x with
  | some v => exact h x v hl
  | none => rfl

theorem cachedCall_snd [DecidableEq α] (f : α → β) (cache : List (α × β))
    (x : α) (h : cacheFaithful f cache) :
    cacheFaithful f (cachedCall f cache x).2 := by
  unfold cachedCall
  cases hl : cacheLookup cache x with
  | some v => exact h
  | none =>
    intro y v hy
    by_cases hxy : x = y
    · simp only [cacheLookup, if_pos hxy] at hy
      cases hy
      rw [hxy]
    · simp only [cacheLookup, if_neg hxy] at hy
      exact h y v hy

/-- C7: the caching decorator is a pure memoize-by-input — starting from
any cache faithful to the underlying function (in particular the empty
initial cache), every call through the decorator returns exactly what
the underlying uncached function returns on the same input; this is
instantiated at the embedded decorated loader `read_csv_robust` viewed
as a function of the cached path argument. -/
theorem st_cache_data_memoize :
    (∀ (α β : Type) (_inst : DecidableEq α) (f : α → β) (xs : List α)
      (cache : List (α × β)), cacheFaithful f cache →
      runCached f xs cache = xs.map f) ∧
    (∀ (fs : String → Option String → Option Nat) (paths : List String),
      runCached (fun p => read_csv_robust (fs p)) paths [] =
        paths.map (fun p => read_csv_robust (fs p))) := by
  have main : ∀ (α β : Type) (_inst : DecidableEq α) (f : α → β)
      (xs : List α) (cache : List (α × β)), cacheFaithful f cache →
      runCached f xs cache = xs.map f := by
    intro α β _inst f xs
    induction xs with
    | nil => intro cache _; rfl
    | cons x xs ih =>
      intro cache h
      unfold runCached
      rw [List.map_cons, cachedCall_fst f cache x h,
        ih (cachedCall f cache x).2 (cachedCall_snd f cache x h)]
  refine ⟨main, ?_⟩
  intro fs paths
  exact main String (Except Unit Nat) inferInstance _ paths []
    (fun x v hv => by cases hv)

/-- Witness for C7: three calls through the decorator with a repeated
input (the third call is a cache hit) return exactly the uncached
results. -/
theorem st_cache_data_memoize_witness :
    runCached (fun n : Nat => n * 2) [1, 2, 1] [] = [2, 4, 2] := by
  have h := st_cache_data_memoize.1 Nat Nat inferInstance
    (fun n : Nat => n * 2) [1, 2, 1] [] (fun x v hv => by cases hv)
  rw [h]
  rfl

end Dashboards
